import Mathlib

/-!
A shallow embedding of `drain3/template_miner.py` (class `TemplateMiner`):
the session controller of the Drain3 log-template-mining pipeline.  The
external collaborators (the Drain clustering engine, the log masker, the
persistence handler, the profiler, zlib and base64) live outside the
embedded file and are represented either as universally quantified
function parameters or, where a claim needs their behaviour, as
definitions modelled from the specification (each such definition says so
in its doc comment).

Conventions of the embedding:
* Python `bytes` is `List Nat`.
* Python timestamps (`time.time()`, floats in seconds) are `Int`-valued
  seconds; each distinct `time.time()` call in the source is a distinct
  explicit parameter.
* Python dictionaries whose keys may be `int` or `str` (the situation
  after a `jsonpickle` round trip) are association lists over `PyKey`.
* Python exceptions are `Except`: a raised exception is `.error`.
-/

namespace Drain3

/-- A Python dictionary key as it can occur in a deserialized Drain state:
either an `int` or a `str` (jsonpickle stringifies non-string keys). -/
inductive PyKey where
  | intK : Int → PyKey
  | strK : String → PyKey
deriving DecidableEq, Repr

/-- The numeric value of a decimal digit character. -/
def charDigit? (c : Char) : Option Nat :=
  if 48 ≤ c.toNat ∧ c.toNat ≤ 57 then some (c.toNat - 48) else none

/-- Decimal accumulation over a character list; fails on the first
non-digit. -/
def parseNatAux : List Char → Nat → Option Nat
  | [], acc => some acc
  | c :: t, acc =>
    match charDigit? c with
    | none => none
    | some d => parseNatAux t (acc * 10 + d)

/-- Python `int(s)` on a canonical decimal string (optional leading
minus, then digits) — the form jsonpickle emits for stringified integer
keys.  `none` models the `ValueError` raised on anything else. -/
def parseInt : List Char → Option Int
  | [] => none
  | c :: t =>
    if c = '-' then
      match t with
      | [] => none
      | _ :: _ => (parseNatAux t 0).map (fun n => -(n : Int))
    else
      (parseNatAux (c :: t) 0).map (fun n => (n : Int))

/-- Python `int(key)`: identity on an `int`, decimal parse on a `str`
(`none` models the `ValueError` raised on a non-numeric string). -/
def PyKey.toInt? : PyKey → Option Int
  | .intK n => some n
  | .strK s => parseInt s.data

/-- Whether the runtime representation of the key is the integer type. -/
def PyKey.isInt : PyKey → Bool
  | .intK _ => true
  | .strK _ => false

/-- A Python dict with `PyKey` keys, as an association list. -/
abbrev PyDict (V : Type) := List (PyKey × V)

/-- Python `d[k]` lookup (first matching entry). -/
def dictLookup {V : Type} (k : PyKey) : PyDict V → Option V
  | [] => none
  | (k', v) :: t => if k' = k then some v else dictLookup k t

/-- Removal of the entry with key `k` (the effect of `d.pop(k)` on `d`). -/
def dictErase {V : Type} (k : PyKey) (d : PyDict V) : PyDict V :=
  d.filter (fun p => decide (p.1 ≠ k))

/-- Python `d[k] = v`: overwrite in place when the key is present,
append otherwise. -/
def dictInsert {V : Type} (k : PyKey) (v : V) : PyDict V → PyDict V
  | [] => [(k, v)]
  | (k', v') :: t => if k' = k then (k, v) :: t else (k', v') :: dictInsert k v t

/-- Python `d.pop(k)`: the value and the remaining dict, `none` models the
`KeyError` raised when `k` is absent. -/
def dictPop {V : Type} (k : PyKey) (d : PyDict V) : Option (V × PyDict V) :=
  match dictLookup k d with
  | none => none
  | some v => some (v, dictErase k d)

/-- One iteration of the key-normalization loops of
`TemplateMiner.load_state`: `d[int(key)] = d.pop(key)`.  An absent key
(`KeyError`) or an unparsable key (`ValueError` from `int`) raises. -/
def normalizeStep {V : Type} (d : PyDict V) (k : PyKey) : Except Unit (PyDict V) :=
  match dictPop k d with
  | none => .error ()
  | some (v, d') =>
    match k.toInt? with
    | none => .error ()
    | some n => .ok (dictInsert (.intK n) v d')

/-- The key-normalization loop of `TemplateMiner.load_state`: for each key
of the dict, re-insert its value under the integer-cast key.  The source
runs the first loop over a copied key list and the second over the live
keys view; after processing the original keys, any further key the live
view can yield is already an integer key, for which the body is a
semantic no-op, so both loops are modelled as a fold over the original
key list. -/
def normalizeKeys {V : Type} (d : PyDict V) : Except Unit (PyDict V) :=
  (d.map Prod.fst).foldlM normalizeStep d

/-- A Drain cluster as seen by the controller (`drain.py` is external;
the spec exposes `id`, `size` and `template()` on it). -/
structure Cluster where
  cluster_id : Int
  size : Nat
  template : String
deriving DecidableEq, Repr

/-- Modelled from the spec: the external cluster exposes a
`template(): string` accessor (`cluster.get_template()` in the source). -/
def Cluster.get_template (c : Cluster) : String := c.template

/-- The state of the external Drain engine that the controller touches:
`root_node.key_to_child_node` (the branch index), `id_to_cluster`,
`clusters`, and the attached `profiler` object. -/
structure DrainModel (V C P : Type) where
  root_key_to_child : PyDict V
  id_to_cluster : PyDict C
  clusters : List Cluster
  profiler : P

/-- The engine state without its process-local instrumentation hook.
Modelled from the spec: the hook is not part of the Clustering Engine
State (§3) and must never be treated as persisted state (§4.2); the
clustering step and serialization therefore act on this projection. -/
def DrainModel.core {V C P : Type} (d : DrainModel V C P) : DrainModel V C Unit :=
  ⟨d.root_key_to_child, d.id_to_cluster, d.clusters, ()⟩

/-- `len(drain.clusters)`: the number of clusters known to the engine. -/
def DrainModel.cluster_count {V C P : Type} (d : DrainModel V C P) : Nat :=
  d.clusters.length

/-- The configuration fields of `TemplateMinerConfig` that
`TemplateMiner` reads on the paths embedded here. -/
structure TemplateMinerConfig where
  snapshot_interval_minutes : Int
  snapshot_compress_state : Bool
  profiling_enabled : Bool
  profiling_report_sec : Int
deriving DecidableEq, Repr

/-- `TemplateMiner.get_snapshot_reason(change_type, cluster_id)`.
`now` is the value of the `time.time()` call inside the method and
`last_save_time` is the field `self.last_save_time`. -/
def get_snapshot_reason (config : TemplateMinerConfig) (last_save_time : Int)
    (change_type : String) (cluster_id : Int) (now : Int) : Option String :=
  if change_type ≠ "none" then
    some (change_type ++ " (" ++ toString cluster_id ++ ")")
  else
    let diff_time_sec := now - last_save_time
    if diff_time_sec ≥ config.snapshot_interval_minutes * 60 then
      some "periodic"
    else
      none

/-- The blob decoding applied by `load_state` to a stored state:
`state = zlib.decompress(base64.b64decode(state))` when
`snapshot_compress_state` is configured, identity otherwise.  `b64decode`
and `decompress` are the external library routines; a raised exception is
`.error`. -/
def decodeStoredState (b64decode decompress : List Nat → Except Unit (List Nat))
    (compress_state : Bool) (state : List Nat) : Except Unit (List Nat) :=
  if compress_state then do
    let raw ← b64decode state
    decompress raw
  else
    .ok state

/-- The blob encoding applied by `save_state` before handing bytes to the
store: `state = base64.b64encode(zlib.compress(state))` when
`snapshot_compress_state` is configured, identity otherwise. -/
def encodeStoredState (compress b64encode : List Nat → List Nat)
    (compress_state : Bool) (state : List Nat) : List Nat :=
  if compress_state then b64encode (compress state) else state

/-- `TemplateMiner.load_state`.
* `stored` is the value returned by `persistence_handler.load_state()`.
* `deserialize` is `jsonpickle.loads` (external; `.error` is a raised
  deserialization exception).
* `current` is the controller's engine before the call (`self.drain`);
  when the store holds nothing the method returns leaving it in place.
* `liveProfiler` is `self.profiler`, re-attached to the restored engine
  by `drain.profiler = self.profiler`.
Any exception of the decode, deserialize or key-normalization steps
propagates. -/
def load_state {V C P : Type}
    (compress_state : Bool)
    (b64decode decompress : List Nat → Except Unit (List Nat))
    (deserialize : List Nat → Except Unit (DrainModel V C P))
    (liveProfiler : P)
    (current : DrainModel V C P)
    (stored : Option (List Nat)) : Except Unit (DrainModel V C P) :=
  match stored with
  | none => .ok current
  | some state0 => do
    let state ← decodeStoredState b64decode decompress compress_state state0
    let drain ← deserialize state
    let kcn ← normalizeKeys drain.root_key_to_child
    let i2c ← normalizeKeys drain.id_to_cluster
    .ok ⟨kcn, i2c, drain.clusters, liveProfiler⟩

/-- The bytes `TemplateMiner.save_state` hands to
`persistence_handler.save_state`: the serialized engine state
(`jsonpickle.dumps(self.drain).encode('utf-8')`, external), then the
compress-and-encode step when configured. -/
def save_state_bytes {V C : Type}
    (serialize : DrainModel V C Unit → List Nat)
    (compress b64encode : List Nat → List Nat)
    (compress_state : Bool)
    (drain : DrainModel V C Unit) : List Nat :=
  encodeStoredState compress b64encode compress_state (serialize drain)

/-- The profiler interface used by `TemplateMiner` (`Profiler` in
`simple_profiler.py`, external): `start_section(name)`, `end_section()`,
`end_section(name)`, `report(period_sec)`.  `P` is the profiler's
internal state; `NullProfiler` ops leave it unchanged. -/
structure ProfilerOps (P : Type) where
  start_section : P → String → P
  end_section_anon : P → P
  end_section : P → String → P
  report : P → Int → P

/-- The mutable fields of `TemplateMiner` that `add_log_message` reads or
writes: `self.drain`, `self.last_save_time`, `self.profiler`. -/
structure TemplateMiner (V C P : Type) where
  drain : DrainModel V C P
  last_save_time : Int
  profiler : P

/-- The result dict built by `add_log_message` (its five keys, in source
order). -/
structure AddLogResult where
  change_type : String
  cluster_id : Int
  cluster_size : Nat
  template_mined : String
  cluster_count : Nat
deriving DecidableEq, Repr

/-- The observable outcome of one `add_log_message` call:
* `miner` — the state of `self` when control leaves the method (also when
  it leaves by exception: the drain step has already mutated `self.drain`
  in place);
* `result` — `some` the returned dict on normal return, `none` when an
  exception propagates;
* `err` — `some e` when an exception propagates out of the call;
* `attempts` — the reasons of the `save_state` invocations made during
  the call, in order (a snapshot attempt is recorded whether or not the
  store's save then raises). -/
structure AddOutcome (V C P ε : Type) where
  miner : TemplateMiner V C P
  result : Option AddLogResult
  err : Option ε
  attempts : List String

/-- `TemplateMiner.add_log_message(log_message)`.
External parameters: `mask` is `self.masker.mask`; `drainAdd` is
`self.drain.add_log_message` (it mutates the engine in place and returns
`(cluster, change_type)`); `ops` are the profiler's methods; `serialize`,
`compress`, `b64encode` are the save-path codecs; `save` is
`persistence_handler.save_state` (`.error` is a raised store exception);
`hasHandler` is `persistence_handler is not None`.  `nowCheck` is the
`time.time()` read inside `get_snapshot_reason` and `nowSave` the later
read assigned to `self.last_save_time` after a successful save. -/
def add_log_message {V C P ε : Type}
    (config : TemplateMinerConfig)
    (mask : String → String)
    (drainAdd : DrainModel V C Unit → String → DrainModel V C Unit × Cluster × String)
    (ops : ProfilerOps P)
    (serialize : DrainModel V C Unit → List Nat)
    (compress b64encode : List Nat → List Nat)
    (save : List Nat → Except ε Unit)
    (hasHandler : Bool)
    (m : TemplateMiner V C P)
    (nowCheck nowSave : Int)
    (log_message : String) : AddOutcome V C P ε :=
  let p := ops.start_section m.profiler "total"
  let p := ops.start_section p "mask"
  let masked_content := mask log_message
  let p := ops.end_section_anon p
  let p := ops.start_section p "drain"
  let step := drainAdd m.drain.core masked_content
  let cluster := step.2.1
  let change_type := step.2.2
  let drain' : DrainModel V C P :=
    ⟨step.1.root_key_to_child, step.1.id_to_cluster, step.1.clusters, m.drain.profiler⟩
  let p := ops.end_section p "drain"
  let result : AddLogResult :=
    { change_type := change_type
      cluster_id := cluster.cluster_id
      cluster_size := cluster.size
      template_mined := cluster.get_template
      cluster_count := step.1.clusters.length }
  if hasHandler then
    let p := ops.start_section p "save_state"
    match get_snapshot_reason config m.last_save_time change_type cluster.cluster_id nowCheck with
    | some snapshot_reason =>
      match save (save_state_bytes serialize compress b64encode config.snapshot_compress_state step.1) with
      | .error e =>
        { miner := ⟨drain', m.last_save_time, p⟩
          result := none
          err := some e
          attempts := [snapshot_reason] }
      | .ok _ =>
        let p := ops.end_section_anon p
        let p := ops.end_section p "total"
        let p := ops.report p config.profiling_report_sec
        { miner := ⟨drain', nowSave, p⟩
          result := some result
          err := none
          attempts := [snapshot_reason] }
    | none =>
      let p := ops.end_section_anon p
      let p := ops.end_section p "total"
      let p := ops.report p config.profiling_report_sec
      { miner := ⟨drain', m.last_save_time, p⟩
        result := some result
        err := none
        attempts := [] }
  else
    let p := ops.end_section p "total"
    let p := ops.report p config.profiling_report_sec
    { miner := ⟨drain', m.last_save_time, p⟩
      result := some result
      err := none
      attempts := [] }

/-- Modelled from the spec: the Clustering Engine is created empty at
controller construction (§3 Lifecycle; §8 empty-store startup yields
`cluster_count() == 0`).  The `Drain` constructor itself is in the
external `drain.py`. -/
def freshDrain {V C P : Type} (profiler : P) : DrainModel V C P :=
  ⟨[], [], [], profiler⟩

/-! ### Concrete collaborator instances (used to evaluate the theorems on
closed inputs) -/

/-- Identity byte transform (a trivial codec satisfying the round-trip
contracts). -/
def idBytes : List Nat → List Nat := fun s => s

/-- A decoding routine that always succeeds with its input. -/
def okDecode : List Nat → Except Unit (List Nat) := fun s => .ok s

/-- A decoding routine that always raises. -/
def failDecode : List Nat → Except Unit (List Nat) := fun _ => .error ()

/-- The no-op profiler: every method leaves the profiler state unchanged
(the `NullProfiler` of `simple_profiler.py`). -/
def nullOps {P : Type} : ProfilerOps P :=
  ⟨fun p _ => p, fun p => p, fun p _ => p, fun p _ => p⟩

/-- A store whose save always succeeds. -/
def okSave : List Nat → Except Unit Unit := fun _ => .ok ()

/-- An identity masker. -/
def maskId : String → String := fun s => s

/-- A concrete serializer for the `Unit`-instantiated engine model. -/
def serializeEx : DrainModel Unit Unit Unit → List Nat := fun d => [d.clusters.length]

/-- A sample configuration: 10-minute snapshot interval, no compression. -/
def cfgA : TemplateMinerConfig := ⟨10, false, false, 60⟩

/-- A sample configuration with a 1-minute snapshot interval. -/
def cfgB : TemplateMinerConfig := ⟨1, false, false, 60⟩

/-- A sample cluster. -/
def clusterEx : Cluster := ⟨1, 1, "hello <*>"⟩

/-- A clustering step that reports a newly created cluster. -/
def createdStep : DrainModel Unit Unit Unit → String →
    DrainModel Unit Unit Unit × Cluster × String :=
  fun d _ => (⟨d.root_key_to_child, d.id_to_cluster, d.clusters ++ [clusterEx], ()⟩,
    clusterEx, "cluster_created")

/-- A clustering step that reports no structural change. -/
def noneStep : DrainModel Unit Unit Unit → String →
    DrainModel Unit Unit Unit × Cluster × String :=
  fun d _ => (d, clusterEx, "none")

/-- A sample controller state with `last_save_time = 0`. -/
def minerEx : TemplateMiner Unit Unit Unit := ⟨freshDrain (), 0, ()⟩

/-- A deserializer returning an engine whose mappings carry the
string-typed keys jsonpickle produces. -/
def desStrKeys : List Nat → Except Unit (DrainModel Unit Unit Unit) :=
  fun _ => .ok ⟨[(.strK "3", ())], [(.strK "7", ())], [], ()⟩

/-- A deserializer returning an engine carrying a stale serialized
profiler value (`0`), for a `Nat`-valued profiler state. -/
def desStaleProfiler : List Nat → Except Unit (DrainModel Unit Unit Nat) :=
  fun _ => .ok ⟨[], [], [], 0⟩

/-! ### Generic `Except` bind reductions -/

theorem ok_bind {α β ε : Type} (a : α) (f : α → Except ε β) :
    (Except.ok a : Except ε α) >>= f = f a := rfl

theorem error_bind {α β ε : Type} (e : ε) (f : α → Except ε β) :
    (Except.error e : Except ε α) >>= f = Except.error e := rfl

/-! ### Lemmas about the key-normalization pass -/

theorem mem_dictInsert {V : Type} {k : PyKey} {v : V} {d : PyDict V} {p : PyKey × V}
    (hp : p ∈ dictInsert k v d) : p.1 = k ∨ p ∈ d := by
  induction d with
  | nil =>
    simp only [dictInsert, List.mem_singleton] at hp
    subst hp
    exact Or.inl rfl
  | cons hd tl ih =>
    simp only [dictInsert] at hp
    by_cases hk : hd.1 = k
    · rw [if_pos hk] at hp
      rcases List.mem_cons.mp hp with h | h
      · subst h; exact Or.inl rfl
      · exact Or.inr (List.mem_cons_of_mem _ h)
    · rw [if_neg hk] at hp
      rcases List.mem_cons.mp hp with h | h
      · subst h; exact Or.inr (List.mem_cons_self _ _)
      · rcases ih h with h' | h'
        · exact Or.inl h'
        · exact Or.inr (List.mem_cons_of_mem _ h')

theorem mem_dictErase {V : Type} {k : PyKey} {d : PyDict V} {p : PyKey × V}
    (hp : p ∈ dictErase k d) : p ∈ d ∧ p.1 ≠ k := by
  have h := List.mem_filter.mp hp
  exact ⟨h.1, of_decide_eq_true h.2⟩

theorem normalizeStep_pres {V : Type} {d d' : PyDict V} {k : PyKey} {ks : List PyKey}
    (hstep : normalizeStep d k = .ok d')
    (hinv : ∀ p ∈ d, p.1.isInt = true ∨ p.1 ∈ k :: ks) :
    ∀ p ∈ d', p.1.isInt = true ∨ p.1 ∈ ks := by
  unfold normalizeStep at hstep
  cases hpop : dictPop k d with
  | none => rw [hpop] at hstep; exact absurd hstep (by simp)
  | some vd =>
    rw [hpop] at hstep
    cases hint : k.toInt? with
    | none => rw [hint] at hstep; exact absurd hstep (by simp)
    | some n =>
      rw [hint] at hstep
      simp only [Except.ok.injEq] at hstep
      subst hstep
      intro p hp
      rcases mem_dictInsert hp with h | h
      · exact Or.inl (by rw [h]; rfl)
      · unfold dictPop at hpop
        cases hlk : dictLookup k d with
        | none => rw [hlk] at hpop; exact absurd hpop (by simp)
        | some v0 =>
          rw [hlk] at hpop
          simp only [Option.some.injEq] at hpop
          have hvd : vd.2 = dictErase k d := by rw [← hpop]
          rw [hvd] at h
          obtain ⟨hmem, hne⟩ := mem_dictErase h
          rcases hinv p hmem with hi | hi
          · exact Or.inl hi
          · rcases List.mem_cons.mp hi with he | he
            · exact absurd he hne
            · exact Or.inr he

theorem foldlM_normalizeStep_int {V : Type} :
    ∀ (ks : List PyKey) (d d' : PyDict V),
      List.foldlM normalizeStep d ks = .ok d' →
      (∀ p ∈ d, p.1.isInt = true ∨ p.1 ∈ ks) →
      ∀ p ∈ d', p.1.isInt = true := by
  intro ks
  induction ks with
  | nil =>
    intro d d' hfold hinv p hp
    simp only [List.foldlM_nil] at hfold
    have hd : d = d' := by
      have : (pure d : Except Unit (PyDict V)) = .ok d := rfl
      rw [this] at hfold
      exact Except.ok.inj hfold
    subst hd
    rcases hinv p hp with h | h
    · exact h
    · exact absurd h (List.not_mem_nil _)
  | cons k t ih =>
    intro d d' hfold hinv
    simp only [List.foldlM_cons] at hfold
    cases hstep : normalizeStep d k with
    | error e =>
      rw [hstep] at hfold
      exact Except.noConfusion hfold
    | ok d1 =>
      rw [hstep] at hfold
      have hfold' : List.foldlM normalizeStep d1 t = .ok d' := hfold
      exact ih d1 d' hfold' (normalizeStep_pres hstep hinv)

theorem normalizeKeys_int {V : Type} {d d' : PyDict V}
    (h : normalizeKeys d = .ok d') : ∀ p ∈ d', p.1.isInt = true := by
  refine foldlM_normalizeStep_int (d.map Prod.fst) d d' h ?_
  intro p hp
  exact Or.inr (List.mem_map_of_mem Prod.fst hp)

/-! ### Inversion of a successful restore -/

theorem load_state_some_inv {V C P : Type}
    {compress_state : Bool} {b64decode decompress : List Nat → Except Unit (List Nat)}
    {deserialize : List Nat → Except Unit (DrainModel V C P)} {liveProfiler : P}
    {current : DrainModel V C P} {s : List Nat} {d' : DrainModel V C P}
    (h : load_state compress_state b64decode decompress deserialize liveProfiler
          current (some s) = .ok d') :
    ∃ st dd kcn i2c,
      decodeStoredState b64decode decompress compress_state s = .ok st ∧
      deserialize st = .ok dd ∧
      normalizeKeys dd.root_key_to_child = .ok kcn ∧
      normalizeKeys dd.id_to_cluster = .ok i2c ∧
      d' = ⟨kcn, i2c, dd.clusters, liveProfiler⟩ := by
  simp only [load_state] at h
  cases hdec : decodeStoredState b64decode decompress compress_state s with
  | error e => rw [hdec, error_bind] at h; exact Except.noConfusion h
  | ok st =>
    rw [hdec, ok_bind] at h
    cases hdes : deserialize st with
    | error e => rw [hdes, error_bind] at h; exact Except.noConfusion h
    | ok dd =>
      rw [hdes, ok_bind] at h
      cases hk1 : normalizeKeys dd.root_key_to_child with
      | error e => rw [hk1, error_bind] at h; exact Except.noConfusion h
      | ok kcn =>
        rw [hk1, ok_bind] at h
        cases hk2 : normalizeKeys dd.id_to_cluster with
        | error e => rw [hk2, error_bind] at h; exact Except.noConfusion h
        | ok i2c =>
          rw [hk2, ok_bind] at h
          exact ⟨st, dd, kcn, i2c, rfl, hdes, hk1, hk2, (Except.ok.inj h).symm⟩

/-- C3: after a successful restore (`load_state` on a stored snapshot),
every key of the branch-index mapping `root_node.key_to_child_node` and of
the `id_to_cluster` mapping of the restored engine is integer-typed; no
string-typed key remains in either mapping. -/
theorem restored_mapping_keys_are_integers {V C P : Type}
    {compress_state : Bool} {b64decode decompress : List Nat → Except Unit (List Nat)}
    {deserialize : List Nat → Except Unit (DrainModel V C P)} {liveProfiler : P}
    {current : DrainModel V C P} {s : List Nat} {d' : DrainModel V C P}
    (h : load_state compress_state b64decode decompress deserialize liveProfiler
          current (some s) = .ok d') :
    (∀ p ∈ d'.root_key_to_child, p.1.isInt = true) ∧
    (∀ p ∈ d'.id_to_cluster, p.1.isInt = true) := by
  obtain ⟨st, dd, kcn, i2c, _, _, hk1, hk2, hd⟩ := load_state_some_inv h
  subst hd
  exact ⟨normalizeKeys_int hk1, normalizeKeys_int hk2⟩

/-- The engine state produced by restoring `desStrKeys`'s output. -/
def drainIntKeys : DrainModel Unit Unit Unit :=
  ⟨[(.intK 3, ())], [(.intK 7, ())], [], ()⟩

theorem restored_mapping_keys_are_integers_witness :
    (∀ p ∈ drainIntKeys.root_key_to_child, p.1.isInt = true) ∧
    (∀ p ∈ drainIntKeys.id_to_cluster, p.1.isInt = true) :=
  @restored_mapping_keys_are_integers Unit Unit Unit false okDecode okDecode
    desStrKeys () (freshDrain ()) [1] drainIntKeys (by rfl)

/-- C9: after `load_state` restores a snapshot, the restored engine's
profiler is the controller's live profiler instance, never the profiler
value recovered from the deserialized state. -/
theorem restored_engine_gets_live_profiler {V C P : Type}
    {compress_state : Bool} {b64decode decompress : List Nat → Except Unit (List Nat)}
    {deserialize : List Nat → Except Unit (DrainModel V C P)} {liveProfiler : P}
    {current : DrainModel V C P} {s : List Nat} {d' : DrainModel V C P}
    (h : load_state compress_state b64decode decompress deserialize liveProfiler
          current (some s) = .ok d') :
    d'.profiler = liveProfiler := by
  obtain ⟨st, dd, kcn, i2c, _, _, _, _, hd⟩ := load_state_some_inv h
  rw [hd]

theorem restored_engine_gets_live_profiler_witness :
    (DrainModel.profiler (⟨[], [], [], 42⟩ : DrainModel Unit Unit Nat)) = 42 :=
  @restored_engine_gets_live_profiler Unit Unit Nat false okDecode okDecode
    desStaleProfiler 42 ⟨[], [], [], 42⟩ [1] ⟨[], [], [], 42⟩ (by rfl)

/-- C4: with compression configured, the decode transformation applied by
`load_state` (base64-decode then decompress) is the exact inverse of the
encode transformation applied by `save_state` (compress then
base64-encode): for every byte sequence `s`, decoding the saved blob
built from `s` yields `s` again, given the library round-trip contracts
of base64 and zlib. -/
theorem save_load_blob_roundtrip
    (b64decode decompress : List Nat → Except Unit (List Nat))
    (compress b64encode : List Nat → List Nat)
    (hb : ∀ x, b64decode (b64encode x) = .ok x)
    (hz : ∀ x, decompress (compress x) = .ok x)
    (s : List Nat) :
    decodeStoredState b64decode decompress true
      (encodeStoredState compress b64encode true s) = .ok s := by
  simp only [decodeStoredState, encodeStoredState, if_true]
  rw [hb, ok_bind, hz]

theorem save_load_blob_roundtrip_witness :
    decodeStoredState okDecode okDecode true
      (encodeStoredState idBytes idBytes true [7, 3]) = .ok [7, 3] :=
  save_load_blob_roundtrip okDecode okDecode idBytes idBytes
    (fun _ => rfl) (fun _ => rfl) [7, 3]

/-- C6: when the store returns bytes on which base64-decoding or
decompression fails (the first disjunct), or which deserialization
rejects (the second disjunct), `load_state` propagates the exception —
construction never silently falls back to an empty engine state. -/
theorem corrupt_store_is_fatal {V C P : Type}
    (compress_state : Bool) (b64decode decompress : List Nat → Except Unit (List Nat))
    (deserialize : List Nat → Except Unit (DrainModel V C P)) (liveProfiler : P)
    (current : DrainModel V C P) (s : List Nat)
    (h : decodeStoredState b64decode decompress compress_state s = .error () ∨
         ∃ st, decodeStoredState b64decode decompress compress_state s = .ok st ∧
           deserialize st = .error ()) :
    load_state compress_state b64decode decompress deserialize liveProfiler
      current (some s) = .error () := by
  simp only [load_state]
  rcases h with h | ⟨st, h1, h2⟩
  · rw [h, error_bind]
  · rw [h1, ok_bind, h2, error_bind]

theorem corrupt_store_is_fatal_witness :
    load_state true failDecode okDecode desStrKeys () (freshDrain ()) (some [9]) =
      .error () :=
  corrupt_store_is_fatal true failDecode okDecode desStrKeys () (freshDrain ())
    [9] (Or.inl rfl)

/-! ### A full characterization of one `add_log_message` call -/

theorem add_log_message_spec {V C P ε : Type}
    (config : TemplateMinerConfig) (mask : String → String)
    (drainAdd : DrainModel V C Unit → String → DrainModel V C Unit × Cluster × String)
    (ops : ProfilerOps P) (serialize : DrainModel V C Unit → List Nat)
    (compress b64encode : List Nat → List Nat) (save : List Nat → Except ε Unit)
    (hasHandler : Bool) (m : TemplateMiner V C P) (nowCheck nowSave : Int)
    (log_message : String) (d' : DrainModel V C Unit) (cl : Cluster) (ct : String)
    (hstep : drainAdd m.drain.core (mask log_message) = (d', cl, ct)) :
    (add_log_message config mask drainAdd ops serialize compress b64encode save
        hasHandler m nowCheck nowSave log_message).miner.drain =
      ⟨d'.root_key_to_child, d'.id_to_cluster, d'.clusters, m.drain.profiler⟩
    ∧ (add_log_message config mask drainAdd ops serialize compress b64encode save
        hasHandler m nowCheck nowSave log_message).attempts =
      (if hasHandler then
        (get_snapshot_reason config m.last_save_time ct cl.cluster_id nowCheck).toList
      else [])
    ∧ (add_log_message config mask drainAdd ops serialize compress b64encode save
        hasHandler m nowCheck nowSave log_message).err =
      (if hasHandler then
        match get_snapshot_reason config m.last_save_time ct cl.cluster_id nowCheck with
        | some _ =>
          match save (save_state_bytes serialize compress b64encode
              config.snapshot_compress_state d') with
          | .error e => some e
          | .ok _ => none
        | none => none
      else none)
    ∧ (add_log_message config mask drainAdd ops serialize compress b64encode save
        hasHandler m nowCheck nowSave log_message).result =
      (if hasHandler then
        match get_snapshot_reason config m.last_save_time ct cl.cluster_id nowCheck with
        | some _ =>
          match save (save_state_bytes serialize compress b64encode
              config.snapshot_compress_state d') with
          | .error _ => none
          | .ok _ => some ⟨ct, cl.cluster_id, cl.size, cl.get_template, d'.clusters.length⟩
        | none => some ⟨ct, cl.cluster_id, cl.size, cl.get_template, d'.clusters.length⟩
      else some ⟨ct, cl.cluster_id, cl.size, cl.get_template, d'.clusters.length⟩)
    ∧ (add_log_message config mask drainAdd ops serialize compress b64encode save
        hasHandler m nowCheck nowSave log_message).miner.last_save_time =
      (if hasHandler then
        match get_snapshot_reason config m.last_save_time ct cl.cluster_id nowCheck with
        | some _ =>
          match save (save_state_bytes serialize compress b64encode
              config.snapshot_compress_state d') with
          | .error _ => m.last_save_time
          | .ok _ => nowSave
        | none => m.last_save_time
      else m.last_save_time) := by
  simp only [add_log_message, hstep]
  cases hasHandler with
  | false => simp
  | true =>
    cases hr : get_snapshot_reason config m.last_save_time ct cl.cluster_id nowCheck with
    | none => simp
    | some r =>
      cases hsv : save (save_state_bytes serialize compress b64encode
          config.snapshot_compress_state d') with
      | error e => simp
      | ok u => simp

/-- C1: when the clustering step reports a structural change
(`change_type ≠ "none"`), `get_snapshot_reason` returns
`"<change_type> (<cluster_id>)"` and the call attempts exactly one
snapshot with that reason, for every clock reading — structural events
are never delayed by the periodic debounce. -/
theorem structural_event_snapshots_immediately {V C P ε : Type}
    (config : TemplateMinerConfig) (mask : String → String)
    (drainAdd : DrainModel V C Unit → String → DrainModel V C Unit × Cluster × String)
    (ops : ProfilerOps P) (serialize : DrainModel V C Unit → List Nat)
    (compress b64encode : List Nat → List Nat) (save : List Nat → Except ε Unit)
    (m : TemplateMiner V C P) (nowCheck nowSave : Int)
    (log_message : String) (d' : DrainModel V C Unit) (cl : Cluster) (ct : String)
    (hstep : drainAdd m.drain.core (mask log_message) = (d', cl, ct))
    (hct : ct ≠ "none") :
    get_snapshot_reason config m.last_save_time ct cl.cluster_id nowCheck =
      some (ct ++ " (" ++ toString cl.cluster_id ++ ")")
    ∧ (add_log_message config mask drainAdd ops serialize compress b64encode save
        true m nowCheck nowSave log_message).attempts =
      [ct ++ " (" ++ toString cl.cluster_id ++ ")"] := by
  have hreason : get_snapshot_reason config m.last_save_time ct cl.cluster_id nowCheck =
      some (ct ++ " (" ++ toString cl.cluster_id ++ ")") := by
    simp [get_snapshot_reason, hct]
  refine ⟨hreason, ?_⟩
  have h := (add_log_message_spec config mask drainAdd ops serialize compress b64encode
    save true m nowCheck nowSave log_message d' cl ct hstep).2.1
  rw [h, hreason]
  rfl

theorem structural_event_snapshots_immediately_witness :
    get_snapshot_reason cfgA minerEx.last_save_time "cluster_created"
        clusterEx.cluster_id 999999 = some "cluster_created (1)"
    ∧ (add_log_message cfgA maskId createdStep nullOps serializeEx idBytes idBytes
        okSave true minerEx 999999 1000000 "hello world").attempts =
      ["cluster_created (1)"] :=
  structural_event_snapshots_immediately cfgA maskId createdStep nullOps serializeEx
    idBytes idBytes okSave minerEx 999999 1000000 "hello world"
    ⟨[], [], [clusterEx], ()⟩ clusterEx "cluster_created" rfl (by decide)

/-- C2 (amended): when the clustering step reports no change
(`change_type = "none"`), a snapshot is attempted iff
`now - last_save_time ≥ snapshot_interval_minutes * 60` — the configured
option is `snapshot_interval_minutes`, expressed in minutes and converted
to seconds by the factor 60 — and in that case its reason is exactly
`"periodic"`; otherwise no snapshot is attempted. -/
theorem none_change_snapshot_is_minute_debounced {V C P ε : Type}
    (config : TemplateMinerConfig) (mask : String → String)
    (drainAdd : DrainModel V C Unit → String → DrainModel V C Unit × Cluster × String)
    (ops : ProfilerOps P) (serialize : DrainModel V C Unit → List Nat)
    (compress b64encode : List Nat → List Nat) (save : List Nat → Except ε Unit)
    (m : TemplateMiner V C P) (nowCheck nowSave : Int)
    (log_message : String) (d' : DrainModel V C Unit) (cl : Cluster) (ct : String)
    (hstep : drainAdd m.drain.core (mask log_message) = (d', cl, ct))
    (hct : ct = "none") :
    (add_log_message config mask drainAdd ops serialize compress b64encode save
        true m nowCheck nowSave log_message).attempts =
      (if nowCheck - m.last_save_time ≥ config.snapshot_interval_minutes * 60 then
        ["periodic"] else []) := by
  have h := (add_log_message_spec config mask drainAdd ops serialize compress b64encode
    save true m nowCheck nowSave log_message d' cl ct hstep).2.1
  rw [h]
  subst hct
  by_cases hge : nowCheck - m.last_save_time ≥ config.snapshot_interval_minutes * 60 <;>
    simp [get_snapshot_reason, hge]

theorem none_change_snapshot_is_minute_debounced_witness :
    (add_log_message cfgB maskId noneStep nullOps serializeEx idBytes idBytes
        okSave true minerEx 60 61 "msg").attempts = ["periodic"] := by
  have h := none_change_snapshot_is_minute_debounced cfgB maskId noneStep nullOps
    serializeEx idBytes idBytes okSave minerEx 60 61 "msg" (freshDrain ())
    clusterEx "none" rfl rfl
  simpa using h

/-- C2 (counterexample): the claim reads the snapshot interval as a
seconds-valued option (`snapshot_interval_seconds`); the code compares
against `snapshot_interval_minutes * 60`.  With the configured interval
option equal to `1` and an elapsed time of `1` second, the claim demands
a `"periodic"` snapshot attempt, but the call attempts none. -/
theorem snapshot_interval_seconds_counterexample :
    ((1 : Int) - 0 ≥ cfgB.snapshot_interval_minutes)
    ∧ (add_log_message cfgB maskId noneStep nullOps serializeEx idBytes idBytes
        okSave true minerEx 1 2 "msg").attempts = [] := by
  constructor
  · decide
  · rfl

/-- C5: when the store holds no state (`load_state()` returns `None`),
startup succeeds with the freshly-empty engine: `load_state` leaves the
controller's engine untouched, the engine has cluster count `0`, and —
for a store whose save succeeds — the first processed message returns
the same result record as a controller constructed with no store at
all. -/
theorem empty_store_startup {V C P ε : Type}
    (compress_state : Bool) (b64decode decompress : List Nat → Except Unit (List Nat))
    (deserialize : List Nat → Except Unit (DrainModel V C P)) (liveProfiler : P) :
    load_state compress_state b64decode decompress deserialize liveProfiler
      (freshDrain liveProfiler) none = .ok (freshDrain liveProfiler)
    ∧ (freshDrain liveProfiler : DrainModel V C P).cluster_count = 0
    ∧ ∀ (config : TemplateMinerConfig) (mask : String → String)
        (drainAdd : DrainModel V C Unit → String → DrainModel V C Unit × Cluster × String)
        (ops : ProfilerOps P) (serialize : DrainModel V C Unit → List Nat)
        (compress b64encode : List Nat → List Nat) (save : List Nat → Except ε Unit)
        (last nowCheck nowSave : Int) (msg : String),
        (∀ b, save b = .ok ()) →
        (add_log_message config mask drainAdd ops serialize compress b64encode save
          true ⟨freshDrain liveProfiler, last, liveProfiler⟩ nowCheck nowSave msg).result
        = (add_log_message config mask drainAdd ops serialize compress b64encode save
          false ⟨freshDrain liveProfiler, last, liveProfiler⟩ nowCheck nowSave msg).result := by
  refine ⟨rfl, rfl, ?_⟩
  intro config mask drainAdd ops serialize compress b64encode save last nowCheck nowSave msg hsave
  have h1 := (add_log_message_spec config mask drainAdd ops serialize compress b64encode
    save true ⟨freshDrain liveProfiler, last, liveProfiler⟩ nowCheck nowSave msg
    (drainAdd (freshDrain ()) (mask msg)).1
    (drainAdd (freshDrain ()) (mask msg)).2.1
    (drainAdd (freshDrain ()) (mask msg)).2.2 rfl).2.2.2.1
  have h2 := (add_log_message_spec config mask drainAdd ops serialize compress b64encode
    save false ⟨freshDrain liveProfiler, last, liveProfiler⟩ nowCheck nowSave msg
    (drainAdd (freshDrain ()) (mask msg)).1
    (drainAdd (freshDrain ()) (mask msg)).2.1
    (drainAdd (freshDrain ()) (mask msg)).2.2 rfl).2.2.2.1
  rw [h1, h2]
  cases hr : get_snapshot_reason config last
      (drainAdd (freshDrain ()) (mask msg)).2.2
      (drainAdd (freshDrain ()) (mask msg)).2.1.cluster_id nowCheck with
  | none => simp
  | some r => simp [hsave]

theorem empty_store_startup_witness :
    load_state false okDecode okDecode desStrKeys () (freshDrain ()) none =
      .ok (freshDrain ())
    ∧ (freshDrain () : DrainModel Unit Unit Unit).cluster_count = 0
    ∧ (add_log_message cfgA maskId noneStep nullOps serializeEx idBytes idBytes
        okSave true ⟨freshDrain (), 0, ()⟩ 1 2 "m").result
      = (add_log_message cfgA maskId noneStep nullOps serializeEx idBytes idBytes
        okSave false ⟨freshDrain (), 0, ()⟩ 1 2 "m").result :=
  ⟨(@empty_store_startup Unit Unit Unit Unit false okDecode okDecode desStrKeys ()).1,
   (@empty_store_startup Unit Unit Unit Unit false okDecode okDecode desStrKeys ()).2.1,
   (empty_store_startup false okDecode okDecode desStrKeys ()).2.2 cfgA maskId
     noneStep nullOps serializeEx idBytes idBytes okSave 0 1 2 "m" (fun _ => rfl)⟩

/-- C7: `last_save_time` is written only after a successful save: when a
snapshot is attempted and the store's save raises, the exception
propagates out of `add_log_message` (no result is returned) and
`last_save_time` is unchanged; when the save succeeds, `last_save_time`
is updated to the post-save clock reading. -/
theorem last_save_time_only_on_successful_save {V C P ε : Type}
    (config : TemplateMinerConfig) (mask : String → String)
    (drainAdd : DrainModel V C Unit → String → DrainModel V C Unit × Cluster × String)
    (ops : ProfilerOps P) (serialize : DrainModel V C Unit → List Nat)
    (compress b64encode : List Nat → List Nat) (e : ε)
    (m : TemplateMiner V C P) (nowCheck nowSave : Int)
    (log_message : String) (d' : DrainModel V C Unit) (cl : Cluster) (ct : String)
    (r : String)
    (hstep : drainAdd m.drain.core (mask log_message) = (d', cl, ct))
    (hr : get_snapshot_reason config m.last_save_time ct cl.cluster_id nowCheck = some r) :
    (add_log_message config mask drainAdd ops serialize compress b64encode
        (fun _ => Except.error e) true m nowCheck nowSave log_message).err = some e
    ∧ (add_log_message config mask drainAdd ops serialize compress b64encode
        (fun _ => Except.error e) true m nowCheck nowSave log_message).result = none
    ∧ (add_log_message config mask drainAdd ops serialize compress b64encode
        (fun _ => Except.error e) true m nowCheck nowSave
        log_message).miner.last_save_time = m.last_save_time
    ∧ (add_log_message config mask drainAdd ops serialize compress b64encode
        (fun _ => (Except.ok () : Except ε Unit)) true m nowCheck nowSave
        log_message).err = none
    ∧ (add_log_message config mask drainAdd ops serialize compress b64encode
        (fun _ => (Except.ok () : Except ε Unit)) true m nowCheck nowSave
        log_message).miner.last_save_time = nowSave := by
  have hf := add_log_message_spec config mask drainAdd ops serialize compress b64encode
    (fun _ => Except.error e) true m nowCheck nowSave log_message d' cl ct hstep
  have hs := add_log_message_spec config mask drainAdd ops serialize compress b64encode
    (fun _ => (Except.ok () : Except ε Unit)) true m nowCheck nowSave log_message d' cl ct hstep
  refine ⟨?_, ?_, ?_, ?_, ?_⟩
  · rw [hf.2.2.1]; simp [hr]
  · rw [hf.2.2.2.1]; simp [hr]
  · rw [hf.2.2.2.2]; simp [hr]
  · rw [hs.2.2.1]; simp [hr]
  · rw [hs.2.2.2.2]; simp [hr]

theorem last_save_time_only_on_successful_save_witness :
    (add_log_message cfgA maskId createdStep nullOps serializeEx idBytes idBytes
        (fun _ => Except.error ()) true minerEx 5 6 "w").err = some ()
    ∧ (add_log_message cfgA maskId createdStep nullOps serializeEx idBytes idBytes
        (fun _ => Except.error ()) true minerEx 5 6 "w").result = none
    ∧ (add_log_message cfgA maskId createdStep nullOps serializeEx idBytes idBytes
        (fun _ => Except.error ()) true minerEx 5 6 "w").miner.last_save_time = 0
    ∧ (add_log_message cfgA maskId createdStep nullOps serializeEx idBytes idBytes
        (fun _ => (Except.ok () : Except Unit Unit)) true minerEx 5 6 "w").err = none
    ∧ (add_log_message cfgA maskId createdStep nullOps serializeEx idBytes idBytes
        (fun _ => (Except.ok () : Except Unit Unit)) true minerEx 5 6
        "w").miner.last_save_time = 6 :=
  last_save_time_only_on_successful_save cfgA maskId createdStep nullOps serializeEx
    idBytes idBytes () minerEx 5 6 "w" ⟨[], [], [clusterEx], ()⟩ clusterEx
    "cluster_created" "cluster_created (1)" rfl rfl

/-- C8: whenever `add_log_message` returns normally, its result record
carries exactly the five fields of the source dict: the change type and
cluster id reported by the clustering step, the matched cluster's size
after this message, the cluster's current template, and the engine's
total cluster count after this message. -/
theorem result_record_contents {V C P ε : Type}
    (config : TemplateMinerConfig) (mask : String → String)
    (drainAdd : DrainModel V C Unit → String → DrainModel V C Unit × Cluster × String)
    (ops : ProfilerOps P) (serialize : DrainModel V C Unit → List Nat)
    (compress b64encode : List Nat → List Nat) (save : List Nat → Except ε Unit)
    (hasHandler : Bool) (m : TemplateMiner V C P) (nowCheck nowSave : Int)
    (log_message : String) (d' : DrainModel V C Unit) (cl : Cluster) (ct : String)
    (hstep : drainAdd m.drain.core (mask log_message) = (d', cl, ct))
    (hok : (add_log_message config mask drainAdd ops serialize compress b64encode save
        hasHandler m nowCheck nowSave log_message).err = none) :
    (add_log_message config mask drainAdd ops serialize compress b64encode save
        hasHandler m nowCheck nowSave log_message).result =
      some ⟨ct, cl.cluster_id, cl.size, cl.get_template, d'.clusters.length⟩ := by
  have hspec := add_log_message_spec config mask drainAdd ops serialize compress
    b64encode save hasHandler m nowCheck nowSave log_message d' cl ct hstep
  have herr := hspec.2.2.1
  have hres := hspec.2.2.2.1
  cases hasHandler with
  | false => simpa using hres
  | true =>
    cases hr : get_snapshot_reason config m.last_save_time ct cl.cluster_id nowCheck with
    | none => rw [hres]; simp [hr]
    | some r =>
      cases hsv : save (save_state_bytes serialize compress b64encode
          config.snapshot_compress_state d') with
      | error e => rw [herr] at hok; simp [hr, hsv] at hok
      | ok u => rw [hres]; simp [hr, hsv]

theorem result_record_contents_witness :
    (add_log_message cfgA maskId createdStep nullOps serializeEx idBytes idBytes
        okSave true minerEx 5 6 "w").result =
      some ⟨"cluster_created", 1, 1, "hello <*>", 1⟩ :=
  result_record_contents cfgA maskId createdStep nullOps serializeEx idBytes idBytes
    okSave true minerEx 5 6 "w" ⟨[], [], [clusterEx], ()⟩ clusterEx
    "cluster_created" rfl rfl

/-- The externally observable data of one `add_log_message` call: the
returned record, the snapshot attempts, the propagated exception, the
snapshot-policy timestamp and the engine state (minus the hook). -/
def observables {V C P ε : Type} (o : AddOutcome V C P ε) :
    Option AddLogResult × List String × Option ε × Int × DrainModel V C Unit :=
  (o.result, o.attempts, o.err, o.miner.last_save_time, o.miner.drain.core)

/-- C10: the outcome of `add_log_message` — result record included — is
independent of the profiler wired in at construction and of the
`profiling_enabled` / `profiling_report_sec` configuration: a run with
any profiler (e.g. `SimpleProfiler`) and a run with any other
(e.g. `NullProfiler`) over the same engine state produce identical
observables; the profiler is never consulted to compute the result. -/
theorem profiling_flag_noninterference {V C P Q ε : Type}
    (config : TemplateMinerConfig) (b2 : Bool) (r2 : Int)
    (mask : String → String)
    (drainAdd : DrainModel V C Unit → String → DrainModel V C Unit × Cluster × String)
    (ops1 : ProfilerOps P) (ops2 : ProfilerOps Q)
    (serialize : DrainModel V C Unit → List Nat)
    (compress b64encode : List Nat → List Nat) (save : List Nat → Except ε Unit)
    (hasHandler : Bool) (rk : PyDict V) (i2c : PyDict C) (cls : List Cluster)
    (p1 : P) (p2 : Q) (last nowCheck nowSave : Int) (msg : String) :
    observables (add_log_message config mask drainAdd ops1 serialize compress
        b64encode save hasHandler ⟨⟨rk, i2c, cls, p1⟩, last, p1⟩ nowCheck nowSave msg)
    = observables (add_log_message
        { config with profiling_enabled := b2, profiling_report_sec := r2 }
        mask drainAdd ops2 serialize compress b64encode save hasHandler
        ⟨⟨rk, i2c, cls, p2⟩, last, p2⟩ nowCheck nowSave msg) := by
  obtain ⟨⟨d', cl, ct⟩, hstep⟩ : ∃ x, drainAdd ⟨rk, i2c, cls, ()⟩ (mask msg) = x :=
    ⟨_, rfl⟩
  have h1 := add_log_message_spec config mask drainAdd ops1 serialize compress
    b64encode save hasHandler ⟨⟨rk, i2c, cls, p1⟩, last, p1⟩ nowCheck nowSave msg
    d' cl ct hstep
  have h2 := add_log_message_spec
    { config with profiling_enabled := b2, profiling_report_sec := r2 }
    mask drainAdd ops2 serialize compress b64encode save hasHandler
    ⟨⟨rk, i2c, cls, p2⟩, last, p2⟩ nowCheck nowSave msg d' cl ct hstep
  have hgr : get_snapshot_reason
      { config with profiling_enabled := b2, profiling_report_sec := r2 } =
      get_snapshot_reason config := rfl
  have hcs : ({ config with profiling_enabled := b2, profiling_report_sec := r2 } :
      TemplateMinerConfig).snapshot_compress_state = config.snapshot_compress_state :=
    rfl
  simp only [observables]
  rw [h1.1, h1.2.1, h1.2.2.1, h1.2.2.2.1, h1.2.2.2.2,
    h2.1, h2.2.1, h2.2.2.1, h2.2.2.2.1, h2.2.2.2.2, hgr, hcs]
  simp [DrainModel.core]

end Drain3
